import Mathlib

/-!
Verification development for the ssb-retire-server-web job-submission and
status-tracking workflow. The definitions below are a shallow embedding of
`src/app.py` (the launch endpoint and its error messages) and
`src/performance/metrics.py` (`PerformanceMetricsCollector.track_retirement_job`,
`PerformanceMetricsCollector.get_retirement_job_summary`,
`AAPJobMonitor.monitor_job`, `AAPJobMonitor._map_aap_status`,
`AAPJobMonitor._extract_job_errors`).

Modelling conventions: timestamps appearing in orchestrator bodies and in
records are parsed instants in seconds (`Int`); Python floats arising from
division are modelled as `ℚ`; JSON fields that may be absent are `Option`;
an outbound HTTP interaction is an oracle value, either a raised exception
(`exc`, covering network errors and timeouts) or a returned response with
its status code and parsed body.
-/

namespace RetireWeb

/-- RetirementJobMetrics dataclass from `src/performance/metrics.py` (lines
41-54): one JobRecord per submitted batch job. `extra_vars` is kept as an
opaque serialized payload, matching the `json.dumps` storage. -/
structure RetirementJobMetrics where
  job_id : String
  status : String
  job_type : String
  target_hosts : List String
  start_time : Int
  end_time : Option Int := none
  duration_seconds : Option ℚ := none
  success_rate : ℚ := 0
  errors : Option (List String) := none
  aap_template_id : Option String := none
  extra_vars : Option String := none
  deriving Repr, DecidableEq

/-- Row of the `job_status_history` table (`src/performance/metrics.py`
lines 117-127): append-only status transition log. -/
structure JobStatusHistoryEntry where
  job_id : String
  status : String
  timestamp : Int
  details : String
  deriving Repr, DecidableEq

/-- The two logical tables of the store: `retirement_jobs` (unique
`job_id`) and `job_status_history` (append-only). -/
structure JobDB where
  jobs : List RetirementJobMetrics
  history : List JobStatusHistoryEntry
  deriving Repr, DecidableEq

/-- Lookup of a job record by its unique `job_id`. -/
def lookupJob (s : List RetirementJobMetrics) (j : String) :
    Option RetirementJobMetrics :=
  s.find? (fun r => r.job_id == j)

/-- Effect of `INSERT OR REPLACE INTO retirement_jobs` keyed by the unique
`job_id` column: any existing row with the same key is replaced. -/
def upsertJob (s : List RetirementJobMetrics) (r : RetirementJobMetrics) :
    List RetirementJobMetrics :=
  r :: s.filter (fun x => x.job_id != r.job_id)

/-- Python's `str.lower()`, modelled as character-wise lowercasing. -/
def py_lower (s : String) : String :=
  ⟨s.data.map Char.toLower⟩

/-- PerformanceMetricsCollector.track_retirement_job
(`src/performance/metrics.py` lines 356-388): upserts the job row and
appends one history entry whose details string is
`f"Job {job_metrics.status.lower()}"`. -/
def track_retirement_job (db : JobDB) (r : RetirementJobMetrics) (now : Int) :
    JobDB :=
  { jobs := upsertJob db.jobs r
    history := db.history ++
      [⟨r.job_id, r.status, now, "Job " ++ py_lower r.status⟩] }

/-- AAPJobMonitor._map_aap_status (`src/performance/metrics.py` lines
666-678): `status_map.get(aap_status.lower(), 'unknown')` over the literal
dictionary, written as the equivalent chain of key comparisons. -/
def map_aap_status (aap_status : String) : String :=
  let l := py_lower aap_status
  if l = "pending" then "pending"
  else if l = "waiting" then "pending"
  else if l = "running" then "running"
  else if l = "successful" then "successful"
  else if l = "failed" then "failed"
  else if l = "error" then "failed"
  else if l = "canceled" then "failed"
  else if l = "never updated" then "pending"
  else "unknown"

/-- Keys of the `_map_aap_status` dictionary. -/
def aap_status_keys : List String :=
  ["pending", "waiting", "running", "successful", "failed", "error",
   "canceled", "never updated"]

/-- Substring test, modelling Python's `in` operator on strings. -/
def str_contains (hay needle : String) : Bool :=
  decide (List.IsInfix needle.data hay.data)

/-- Truthiness of an optional string in Python: present and non-empty. -/
def py_truthy_str (o : Option String) : Bool :=
  match o with
  | some s => s != ""
  | none => false

/-- Parsed body of the orchestrator's `GET /api/v2/jobs/{id}/` response, as
read by `AAPJobMonitor.monitor_job` and `_extract_job_errors`
(`src/performance/metrics.py` lines 612-644, 680-694). `started` and
`finished` are parsed instants in seconds; absent JSON keys are `none`. -/
structure AapJobData where
  status : Option String := none
  started : Option Int := none
  finished : Option Int := none
  failed : Option Int := none
  job_template : Option String := none
  extra_vars : Option String := none
  result_stdout : Option String := none
  job_explanation : Option String := none
  deriving Repr, DecidableEq

/-- Outcome of the outbound status query issued by `monitor_job`: either
the `requests.get` call (or the subsequent body parsing) raised an
exception — covering network errors and timeouts — or a response came back
with a status code and a parsed body. -/
inductive AapQueryResult where
  | exc (msg : String)
  | http (code : Nat) (body : AapJobData)
  deriving Repr, DecidableEq

/-- AAPJobMonitor._extract_job_errors (`src/performance/metrics.py` lines
680-694): collects at most two messages when the raw orchestrator status
is failed/error, and returns `None` (here `none`) when nothing was
collected. -/
def extract_job_errors (d : AapJobData) : Option (List String) :=
  let stdout_errs : List String :=
    if py_truthy_str d.result_stdout ∧
        (str_contains (d.result_stdout.getD "") "FAILED" ∨
         str_contains (d.result_stdout.getD "") "ERROR") then
      ["Job execution failed - check AAP logs for details"]
    else []
  let explanation_errs : List String :=
    if py_truthy_str d.job_explanation then [d.job_explanation.getD ""] else []
  if d.status = some "failed" ∨ d.status = some "error" then
    let errs := stdout_errs ++ explanation_errs
    if errs = [] then none else some errs
  else none

/-- Success-rate computation of `monitor_job` (`src/performance/metrics.py`
lines 628-631): `((total_hosts - failed_hosts) / total_hosts * 100) if
total_hosts > 0 else 0`, with Python's true division modelled in `ℚ`. -/
def compute_success_rate (total_hosts : Nat) (failed_hosts : Int) : ℚ :=
  if 0 < total_hosts then
    ((total_hosts : ℚ) - (failed_hosts : ℚ)) / (total_hosts : ℚ) * 100
  else 0

/-- Duration computation of `monitor_job` (`src/performance/metrics.py`
lines 619-626): the difference of the finish and start instants when both
are present, otherwise `None`. -/
def compute_duration (started finished : Option Int) : Option ℚ :=
  match started, finished with
  | some s, some f => some (((f - s : Int) : ℚ))
  | _, _ => none

/-- JobRecord built by `monitor_job` from a 200 response body
(`src/performance/metrics.py` lines 633-645). -/
def monitor_success_record (body : AapJobData) (job_id : String)
    (target_hosts : List String) (job_type : String) (now : Int) :
    RetirementJobMetrics :=
  { job_id := job_id
    status := map_aap_status (body.status.getD "unknown")
    job_type := job_type
    target_hosts := target_hosts
    start_time := body.started.getD now
    end_time := body.finished
    duration_seconds := compute_duration body.started body.finished
    success_rate := compute_success_rate target_hosts.length (body.failed.getD 0)
    errors := extract_job_errors body
    aap_template_id := some (body.job_template.getD "")
    extra_vars := body.extra_vars }

/-- JobRecord built by `monitor_job` when the status query raised an
exception (`src/performance/metrics.py` lines 652-661): every optional
field keeps its dataclass default. -/
def monitor_error_record (m job_id : String) (target_hosts : List String)
    (job_type : String) (now : Int) : RetirementJobMetrics :=
  { job_id := job_id
    status := "error"
    job_type := job_type
    target_hosts := target_hosts
    start_time := now
    errors := some ["Monitoring error: " ++ m] }

/-- Result of one `monitor_job` call: the value returned to the caller
(`none` models Python's implicit `None` return) and the store afterwards. -/
structure MonitorOutcome where
  result : Option RetirementJobMetrics
  db : JobDB
  deriving Repr, DecidableEq

/-- AAPJobMonitor.monitor_job (`src/performance/metrics.py` lines
594-664). On a 200 response it builds the record from the body and tracks
it; on any raised exception it tracks an error record; on a non-200
response it falls off the end of the `try` block, returning `None` and
writing nothing. -/
def monitor_job (db : JobDB) (q : AapQueryResult) (job_id : String)
    (target_hosts : List String) (job_type : String) (now : Int) :
    MonitorOutcome :=
  match q with
  | .http code body =>
    if code = 200 then
      let r := monitor_success_record body job_id target_hosts job_type now
      ⟨some r, track_retirement_job db r now⟩
    else ⟨none, db⟩
  | .exc m =>
    let r := monitor_error_record m job_id target_hosts job_type now
    ⟨some r, track_retirement_job db r now⟩

/-- Terminal canonical statuses in the sense of the data-model glossary. -/
def is_terminal (s : String) : Prop :=
  s = "successful" ∨ s = "failed"

/-- Upserting a record and then looking its key up yields that record. -/
theorem lookupJob_upsertJob (s : List RetirementJobMetrics)
    (r : RetirementJobMetrics) :
    lookupJob (upsertJob s r) r.job_id = some r := by
  simp [lookupJob, upsertJob, List.find?_cons_of_pos]

/-- Unfolding of `monitor_job` on the exception path. -/
theorem monitor_job_exc_eq (db : JobDB) (m j jt : String)
    (hosts : List String) (now : Int) :
    monitor_job db (.exc m) j hosts jt now =
      ⟨some (monitor_error_record m j hosts jt now),
       track_retirement_job db (monitor_error_record m j hosts jt now) now⟩ :=
  rfl

/-- Unfolding of `monitor_job` on the 200 path. -/
theorem monitor_job_200_eq (db : JobDB) (body : AapJobData) (j jt : String)
    (hosts : List String) (now : Int) :
    monitor_job db (.http 200 body) j hosts jt now =
      ⟨some (monitor_success_record body j hosts jt now),
       track_retirement_job db (monitor_success_record body j hosts jt now)
         now⟩ :=
  rfl

/-- Unfolding of `monitor_job` on a non-200 response: nothing happens. -/
theorem monitor_job_non200_eq (db : JobDB) (body : AapJobData) (code : Nat)
    (j jt : String) (hosts : List String) (now : Int) (hcode : code ≠ 200) :
    monitor_job db (.http code body) j hosts jt now = ⟨none, db⟩ := by
  simp [monitor_job, hcode]

/-- Looking up the tracked record's id after `track_retirement_job` yields
the freshly written record. -/
theorem lookup_after_track (db : JobDB) (r : RetirementJobMetrics)
    (now : Int) :
    lookupJob (track_retirement_job db r now).jobs r.job_id = some r :=
  lookupJob_upsertJob db.jobs r

/-- Variant of `lookup_after_track` with the lookup key given
explicitly. -/
theorem lookup_after_track_key (db : JobDB) (r : RetirementJobMetrics)
    (now : Int) (j : String) (hj : r.job_id = j) :
    lookupJob (track_retirement_job db r now).jobs j = some r := by
  subst hj
  exact lookupJob_upsertJob db.jobs r

/-- The history grows by exactly one entry per `track_retirement_job`. -/
theorem track_history_length (db : JobDB) (r : RetirementJobMetrics)
    (now : Int) :
    (track_retirement_job db r now).history.length
      = db.history.length + 1 := by
  simp [track_retirement_job]

/-- C6: the Status Mapper is total and deterministic (it is a Lean
function), case-insensitive (its value depends only on the lowercased
input), maps exactly per the table
pending/waiting/never updated to pending, running to running, successful
to successful, failed/error/canceled to failed, any input whose lowercase
form is not a table key to unknown; in particular
map "RUNNING" = running and map "bogus" = unknown. -/
theorem map_aap_status_spec :
    (∀ s t : String, py_lower s = py_lower t →
      map_aap_status s = map_aap_status t) ∧
    map_aap_status "pending" = "pending" ∧
    map_aap_status "waiting" = "pending" ∧
    map_aap_status "never updated" = "pending" ∧
    map_aap_status "running" = "running" ∧
    map_aap_status "successful" = "successful" ∧
    map_aap_status "failed" = "failed" ∧
    map_aap_status "error" = "failed" ∧
    map_aap_status "canceled" = "failed" ∧
    map_aap_status "RUNNING" = "running" ∧
    map_aap_status "bogus" = "unknown" ∧
    (∀ s : String, py_lower s ∉ aap_status_keys →
      map_aap_status s = "unknown") := by
  refine ⟨?_, by decide, by decide, by decide, by decide, by decide,
    by decide, by decide, by decide, by decide, by decide, ?_⟩
  · intro s t h
    simp only [map_aap_status, h]
  · intro s h
    simp only [aap_status_keys, List.mem_cons, List.not_mem_nil, or_false,
      not_or] at h
    obtain ⟨h1, h2, h3, h4, h5, h6, h7, h8⟩ := h
    simp only [map_aap_status, h1, h2, h3, h4, h5, h6, h7, h8, if_false]

/-- Witness for `map_aap_status_spec`: its universally quantified parts
applied at concrete inputs. -/
theorem map_aap_status_spec_witness :
    map_aap_status "RUNNING" = map_aap_status "Running" ∧
    map_aap_status "bOgUs" = "unknown" :=
  ⟨map_aap_status_spec.1 "RUNNING" "Running" (by decide),
   map_aap_status_spec.2.2.2.2.2.2.2.2.2.2.2 "bOgUs" (by decide)⟩

/-- C1 counterexample: a monitor call whose status query returns a non-200
HTTP response (here 500) raises no exception, so the function falls off
the end of its try block — it records no JobRecord update, appends no
StatusHistoryEntry, and returns no record, contradicting both the
error-recording clause and the one-upsert-one-history-entry clause. -/
theorem monitor_non200_writes_nothing_cex :
    (monitor_job ⟨[], []⟩ (.http 500 {}) "42" ["vm1"] "retirement" 0).result
      = none ∧
    (monitor_job ⟨[], []⟩ (.http 500 {}) "42" ["vm1"] "retirement" 0).db
      = ⟨[], []⟩ ∧
    ¬ ((monitor_job ⟨[], []⟩ (.http 500 {}) "42" ["vm1"] "retirement"
        0).db.history.length = 1) := by
  refine ⟨rfl, rfl, by decide⟩

/-- C1 amended: when the status query raises an exception (network error,
timeout), the Monitor upserts a JobRecord with status error and a
non-empty errors list and appends exactly one history entry; when the
query returns HTTP 200 it upserts the computed record and appends exactly
one history entry; when the query returns a non-200 response without
raising, the Monitor writes nothing and returns no record. -/
theorem monitor_record_per_call_amended :
    (∀ (db : JobDB) (m j jt : String) (hosts : List String) (now : Int),
      (monitor_job db (.exc m) j hosts jt now).db.history.length
        = db.history.length + 1 ∧
      ((lookupJob (monitor_job db (.exc m) j hosts jt now).db.jobs j).map
        (fun r => r.status)) = some "error" ∧
      (∃ es : List String, es ≠ [] ∧
        ((lookupJob (monitor_job db (.exc m) j hosts jt now).db.jobs j).map
          (fun r => r.errors)) = some (some es))) ∧
    (∀ (db : JobDB) (body : AapJobData) (j jt : String)
      (hosts : List String) (now : Int),
      (monitor_job db (.http 200 body) j hosts jt now).db.history.length
        = db.history.length + 1 ∧
      (∃ r, (monitor_job db (.http 200 body) j hosts jt now).result = some r ∧
        lookupJob (monitor_job db (.http 200 body) j hosts jt now).db.jobs j
          = some r)) ∧
    (∀ (db : JobDB) (body : AapJobData) (code : Nat) (j jt : String)
      (hosts : List String) (now : Int), code ≠ 200 →
      monitor_job db (.http code body) j hosts jt now = ⟨none, db⟩) := by
  refine ⟨?_, ?_, ?_⟩
  · intro db m j jt hosts now
    have hlk : lookupJob (monitor_job db (.exc m) j hosts jt now).db.jobs j
        = some (monitor_error_record m j hosts jt now) :=
      lookup_after_track_key db _ now j rfl
    refine ⟨track_history_length db _ now, ?_, ?_⟩
    · rw [hlk]
      rfl
    · refine ⟨["Monitoring error: " ++ m], by simp, ?_⟩
      rw [hlk]
      rfl
  · intro db body j jt hosts now
    have hlk : lookupJob
        (monitor_job db (.http 200 body) j hosts jt now).db.jobs j
        = some (monitor_success_record body j hosts jt now) :=
      lookup_after_track_key db _ now j rfl
    exact ⟨track_history_length db _ now,
      monitor_success_record body j hosts jt now, rfl, hlk⟩
  · intro db body code j jt hosts now hcode
    exact monitor_job_non200_eq db body code j jt hosts now hcode

/-- Witness for `monitor_record_per_call_amended`: its non-200 clause
applied at a concrete input, discharging the hypothesis there. -/
theorem monitor_record_per_call_amended_witness :
    monitor_job ⟨[], []⟩ (.http 404 {}) "42" ["vm1"] "retirement" 0
      = ⟨none, ⟨[], []⟩⟩ :=
  monitor_record_per_call_amended.2.2 ⟨[], []⟩ {} 404 "42" "retirement"
    ["vm1"] 0 (by decide)

/-- C2 counterexample: when the orchestrator reports finish before start
(started at 100, finished at 40), the Monitor reports
duration_seconds = -60, a negative value, instead of the claimed null. -/
theorem monitor_duration_negative_cex :
    ((monitor_job ⟨[], []⟩
        (.http 200 { started := some 100, finished := some 40 })
        "42" ["vm1"] "retirement" 0).result.map
      (fun r => r.duration_seconds)) = some (some (-60)) ∧
    some (some (-60 : ℚ)) ≠ some (none : Option ℚ) ∧ (-60 : ℚ) < 0 := by
  refine ⟨by decide, by decide, by norm_num⟩

/-- C2 amended: for every monitored job answered with HTTP 200, when both
start and finish instants are present duration_seconds equals finish minus
start in seconds — which is negative when finish precedes start — and when
either instant is absent duration_seconds is null. -/
theorem monitor_duration_amended :
    ∀ (db : JobDB) (body : AapJobData) (j jt : String)
      (hosts : List String) (now : Int),
      (∀ s f : Int, body.started = some s → body.finished = some f →
        ((monitor_job db (.http 200 body) j hosts jt now).result.map
          (fun r => r.duration_seconds)) = some (some ((f - s : Int) : ℚ))) ∧
      (body.finished = none →
        ((monitor_job db (.http 200 body) j hosts jt now).result.map
          (fun r => r.duration_seconds)) = some none) ∧
      (body.started = none →
        ((monitor_job db (.http 200 body) j hosts jt now).result.map
          (fun r => r.duration_seconds)) = some none) := by
  intro db body j jt hosts now
  rw [monitor_job_200_eq]
  refine ⟨?_, ?_, ?_⟩
  · intro s f hs hf
    simp [monitor_success_record, compute_duration, hs, hf]
  · intro hf
    cases hstart : body.started <;>
      simp [monitor_success_record, compute_duration, hf, hstart]
  · intro hs
    cases hfin : body.finished <;>
      simp [monitor_success_record, compute_duration, hs, hfin]

/-- Witness for `monitor_duration_amended`: the spec's own example, start
at 0 and finish 300 seconds later gives duration 300. -/
theorem monitor_duration_amended_witness :
    ((monitor_job ⟨[], []⟩
        (.http 200 { started := some 0, finished := some 300 })
        "42" ["vm1"] "retirement" 0).result.map
      (fun r => r.duration_seconds)) = some (some ((300 - 0 : Int) : ℚ)) :=
  (monitor_duration_amended ⟨[], []⟩
    { started := some 0, finished := some 300 } "42" "retirement" ["vm1"]
    0).1 0 300 rfl rfl

/-- C3 counterexample: a store holds job 7 with terminal status
successful; a monitor refresh whose query raises an exception (so the
orchestrator reported nothing) overwrites the stored status with error. -/
theorem terminal_status_overwritten_cex :
    ((lookupJob [{ job_id := "7", status := "successful",
                   job_type := "retirement", target_hosts := ["vm1"],
                   start_time := 0 }] "7").map (fun r => r.status))
      = some "successful" ∧
    ((lookupJob (monitor_job
        ⟨[{ job_id := "7", status := "successful",
            job_type := "retirement", target_hosts := ["vm1"],
            start_time := 0 }], []⟩
        (.exc "timeout") "7" ["vm1"] "retirement" 5).db.jobs "7").map
      (fun r => r.status)) = some "error" := by
  refine ⟨by decide, by decide⟩

/-- C3 amended: a Monitor refresh overwrites a stored terminal status only
when the query raised an exception (the new status is then error) or when
the orchestrator answered HTTP 200 with a status whose canonical mapping
differs from the stored one; a non-200 response leaves the store
untouched. -/
theorem terminal_status_overwrite_amended :
    ∀ (db : JobDB) (q : AapQueryResult) (j jt : String)
      (hosts : List String) (now : Int) (r r' : RetirementJobMetrics),
      lookupJob db.jobs j = some r →
      is_terminal r.status →
      lookupJob (monitor_job db q j hosts jt now).db.jobs j = some r' →
      r'.status ≠ r.status →
      (∃ m, q = .exc m ∧ r'.status = "error") ∨
      (∃ body, q = .http 200 body ∧
        r'.status = map_aap_status (body.status.getD "unknown")) := by
  intro db q j jt hosts now r r' hr hterm hr' hne
  cases q with
  | exc m =>
    left
    refine ⟨m, rfl, ?_⟩
    have hlk : lookupJob (monitor_job db (.exc m) j hosts jt now).db.jobs j
        = some (monitor_error_record m j hosts jt now) :=
      lookup_after_track_key db _ now j rfl
    rw [hlk] at hr'
    rw [← Option.some.inj hr']
    rfl
  | http code body =>
    by_cases hcode : code = 200
    · right
      subst hcode
      refine ⟨body, rfl, ?_⟩
      have hlk : lookupJob
          (monitor_job db (.http 200 body) j hosts jt now).db.jobs j
          = some (monitor_success_record body j hosts jt now) :=
        lookup_after_track_key db _ now j rfl
      rw [hlk] at hr'
      rw [← Option.some.inj hr']
      rfl
    · exfalso
      rw [monitor_job_non200_eq db body code j jt hosts now hcode] at hr'
      rw [hr] at hr'
      exact hne (congrArg RetirementJobMetrics.status
        (Option.some.inj hr')).symm

/-- Witness for `terminal_status_overwrite_amended`: the exception-path
instance at a concrete store, with every hypothesis discharged there. -/
theorem terminal_status_overwrite_amended_witness :
    (∃ m, AapQueryResult.exc "timeout" = .exc m ∧
      (monitor_error_record "timeout" "7" ["vm1"] "retirement" 5).status
        = "error") ∨
    (∃ body, AapQueryResult.exc "timeout" = .http 200 body ∧
      (monitor_error_record "timeout" "7" ["vm1"] "retirement" 5).status
        = map_aap_status (body.status.getD "unknown")) :=
  terminal_status_overwrite_amended
    ⟨[{ job_id := "7", status := "successful", job_type := "retirement",
        target_hosts := ["vm1"], start_time := 0 }], []⟩
    (.exc "timeout") "7" "retirement" ["vm1"] 5
    { job_id := "7", status := "successful", job_type := "retirement",
      target_hosts := ["vm1"], start_time := 0 }
    (monitor_error_record "timeout" "7" ["vm1"] "retirement" 5)
    (by decide) (Or.inl rfl) (by decide) (by decide)

/-- C5 counterexample: with 4 target hosts and an orchestrator-reported
failed count of 5, the Monitor computes success_rate = -25, which is
outside the claimed range [0,100]. -/
theorem success_rate_out_of_range_cex :
    ((monitor_job ⟨[], []⟩ (.http 200 { failed := some 5 }) "42"
        ["a", "b", "c", "d"] "retirement" 0).result.map
      (fun r => r.success_rate)) = some (-25) ∧
    ¬ (0 ≤ (-25 : ℚ)) := by
  constructor
  · have h : compute_success_rate 4 5 = -25 := by
      norm_num [compute_success_rate]
    rw [monitor_job_200_eq]
    simp [monitor_success_record]
    exact h
  · norm_num

/-- C5 amended: the Monitor computes success_rate as
(total_hosts - failed_hosts) / total_hosts * 100 when there is at least
one target host and as 0 when there are none, and the result lies in
[0,100] whenever the reported failed count is between 0 and the
target-host count. -/
theorem success_rate_amended :
    ∀ (db : JobDB) (body : AapJobData) (j jt : String)
      (hosts : List String) (now : Int) (f : Int),
      body.failed = some f →
      ((monitor_job db (.http 200 body) j hosts jt now).result.map
        (fun r => r.success_rate))
        = some (compute_success_rate hosts.length f) ∧
      (0 < hosts.length →
        compute_success_rate hosts.length f
          = ((hosts.length : ℚ) - (f : ℚ)) / (hosts.length : ℚ) * 100) ∧
      (hosts.length = 0 → compute_success_rate hosts.length f = 0) ∧
      (0 ≤ f → f ≤ (hosts.length : Int) →
        0 ≤ compute_success_rate hosts.length f ∧
        compute_success_rate hosts.length f ≤ 100) := by
  intro db body j jt hosts now f hf
  refine ⟨?_, ?_, ?_, ?_⟩
  · rw [monitor_job_200_eq]
    simp [monitor_success_record, hf]
  · intro hpos
    simp [compute_success_rate, hpos]
  · intro hzero
    simp [compute_success_rate, hzero]
  · intro hf0 hfT
    by_cases hpos : 0 < hosts.length
    · have hT : (0 : ℚ) < (hosts.length : ℚ) := by exact_mod_cast hpos
      have hfq : (f : ℚ) ≤ (hosts.length : ℚ) := by exact_mod_cast hfT
      have hf0q : (0 : ℚ) ≤ (f : ℚ) := by exact_mod_cast hf0
      rw [compute_success_rate, if_pos hpos]
      constructor
      · apply mul_nonneg
        · apply div_nonneg _ hT.le
          linarith
        · norm_num
      · have h1 : ((hosts.length : ℚ) - (f : ℚ)) / (hosts.length : ℚ)
            ≤ 1 := by
          rw [div_le_one hT]
          linarith
        calc ((hosts.length : ℚ) - (f : ℚ)) / (hosts.length : ℚ) * 100
            ≤ 1 * 100 := by
              apply mul_le_mul_of_nonneg_right h1
              norm_num
          _ = 100 := by norm_num
    · rw [compute_success_rate, if_neg hpos]
      norm_num

/-- Witness for `success_rate_amended`: the spec's own example, 4 hosts
and 1 failed host give success_rate 75. -/
theorem success_rate_amended_witness :
    ((monitor_job ⟨[], []⟩ (.http 200 { failed := some 1 }) "42"
        ["a", "b", "c", "d"] "retirement" 0).result.map
      (fun r => r.success_rate)) = some (compute_success_rate 4 1) ∧
    compute_success_rate 4 1 = 75 :=
  ⟨(success_rate_amended ⟨[], []⟩ { failed := some 1 } "42" "retirement"
      ["a", "b", "c", "d"] 0 1 rfl).1,
   by norm_num [compute_success_rate]⟩

/-- C9: when a monitor call fails with an exception, the record upserted
for that job has start_time equal to the current time and end_time,
duration_seconds, template identifier and extra_vars all cleared to none
with success_rate 0, whatever the store previously held under that id. -/
theorem monitor_failure_frame :
    ∀ (db : JobDB) (m j jt : String) (hosts : List String) (now : Int),
      lookupJob (monitor_job db (.exc m) j hosts jt now).db.jobs j =
        some { job_id := j, status := "error", job_type := jt,
               target_hosts := hosts, start_time := now,
               end_time := none, duration_seconds := none,
               success_rate := 0,
               errors := some ["Monitoring error: " ++ m],
               aap_template_id := none, extra_vars := none } := by
  intro db m j jt hosts now
  rw [monitor_job_exc_eq]
  exact lookup_after_track db (monitor_error_record m j hosts jt now) now

/-- Submission payload read by `launch_job` (`src/app.py` lines 198-224):
`data.get(...)` with absent JSON fields modelled as `none`, and
`record_names` defaulting to the empty list. -/
structure LaunchRequest where
  record_names : List String := []
  schedule_shutdown_date : Option String := none
  schedule_retire_date : Option String := none
  schedule_shutdown_time : Option String := none
  schedule_retire_time : Option String := none
  dns_server : Option String := none
  dns_zone : Option String := none
  deriving Repr, DecidableEq

/-- Fixed-shape `extra_vars` bundle built by `launch_job` (`src/app.py`
lines 216-224), with the DNS defaults applied. -/
structure ExtraVars where
  record_names : List String
  schedule_shutdown_date : Option String
  schedule_retire_date : Option String
  schedule_shutdown_time : Option String
  schedule_retire_time : Option String
  dns_server : String
  dns_zone : String
  deriving Repr, DecidableEq

/-- Construction of the `extra_vars` dictionary from the request. -/
def build_extra_vars (d : LaunchRequest) : ExtraVars :=
  { record_names := d.record_names
    schedule_shutdown_date := d.schedule_shutdown_date
    schedule_retire_date := d.schedule_retire_date
    schedule_shutdown_time := d.schedule_shutdown_time
    schedule_retire_time := d.schedule_retire_time
    dns_server := d.dns_server.getD "chrpr2dc38.chrobinson.com"
    dns_zone := d.dns_zone.getD "chrobinson.com" }

/-- Serialization of the `extra_vars` bundle, standing in for
`json.dumps`. -/
def serialize_extra_vars (v : ExtraVars) : String :=
  String.intercalate "," v.record_names ++ ";"
    ++ v.schedule_shutdown_date.getD "" ++ ";"
    ++ v.schedule_retire_date.getD "" ++ ";"
    ++ v.schedule_shutdown_time.getD "" ++ ";"
    ++ v.schedule_retire_time.getD "" ++ ";"
    ++ v.dns_server ++ ";" ++ v.dns_zone

/-- Outcome of the single outbound `requests.post` to the orchestrator's
launch endpoint: a raised exception (network error, timeout) or a
response with its status code, parsed id and url fields, and raw body
text. -/
inductive LaunchHttpResult where
  | exc (msg : String)
  | http (code : Nat) (id : Option Nat) (url : Option String) (text : String)
  deriving Repr, DecidableEq

/-- Success of the orchestrator launch call as `launch_job` judges it: no
exception was raised and the status code is below 400 (`src/app.py` lines
252-258: codes at or above 400 return early and `raise_for_status` only
raises in that same range). -/
def launch_call_success (o : LaunchHttpResult) : Bool :=
  match o with
  | .exc _ => false
  | .http code _ _ _ => decide (code < 400)

/-- Truthiness of the orchestrator-assigned job id in `if job_id:`
(`src/app.py` line 271): absent and zero are both falsy. -/
def py_truthy_id (o : Option Nat) : Bool :=
  match o with
  | some i => i != 0
  | none => false

/-- Error body template of `src/app.py` line 255, interpolating the raw
orchestrator response text. -/
def launch_upstream_error_message (response_text : String) : String :=
  "Error launching job: " ++ response_text

/-- Error body template of `src/app.py` line 263, interpolating the raw
exception text. -/
def launch_request_exc_message (e : String) : String :=
  "Error launching job: " ++ e ++ ". Check token and template ID."

/-- Error body template of `src/app.py` line 310, interpolating the raw
exception text. -/
def launch_server_error_message (e : String) : String :=
  "Server error: " ++ e

/-- Error body of the monitor endpoint `src/app.py` line 463: the message
field is `str(e)`, the exception text verbatim. -/
def monitor_endpoint_error_message (e : String) : String :=
  e

/-- HTTP-level result of the launch endpoint, by the branch of
`launch_job` that produced it. -/
inductive LaunchResult where
  | ok (job_id : Option Nat) (job_url : Option String)
  | validation_failed (http_status : Nat) (message : String)
  | upstream_failed (http_status : Nat) (message : String)
  | config_failed (http_status : Nat) (message : String)
  deriving Repr, DecidableEq

/-- Observable outcome of one launch request: the response, the number of
outbound orchestrator calls issued, and the store afterwards. -/
structure LaunchOutcome where
  result : LaunchResult
  outbound_calls : Nat
  db : JobDB
  deriving Repr, DecidableEq

/-- Initial JobRecord created by `launch_job` on success (`src/app.py`
lines 279-287): status pending, the submitted hosts, the template id and
the launch payload. -/
def launch_record (i : Nat) (d : LaunchRequest) (template_id : String)
    (now : Int) : RetirementJobMetrics :=
  { job_id := toString i
    status := "pending"
    job_type := "retirement"
    target_hosts := d.record_names
    start_time := now
    aap_template_id := some template_id
    extra_vars := some (serialize_extra_vars (build_extra_vars d)) }

/-- The launch endpoint `launch_job` (`src/app.py` lines 196-310): token
guard, host-count validation before any outbound call, one orchestrator
call, early 500 return on a 4xx/5xx orchestrator status, and best-effort
creation of the pending JobRecord when a truthy job id came back. -/
def launch_job_endpoint (db : JobDB) (token_set : Bool)
    (template_id : String) (d : LaunchRequest) (orch : LaunchHttpResult)
    (now : Int) : LaunchOutcome :=
  if token_set = false then
    ⟨.config_failed 500
      "No AAP token configured. Set the AAP_TOKEN environment variable.",
     0, db⟩
  else if d.record_names.length < 1 ∨ 5 < d.record_names.length then
    ⟨.validation_failed 400
      "Invalid request: Between 1 and 5 VM record names must be provided per job.",
     0, db⟩
  else
    match orch with
    | .exc m => ⟨.upstream_failed 500 (launch_request_exc_message m), 1, db⟩
    | .http code id url text =>
      if 400 ≤ code then
        ⟨.upstream_failed 500 (launch_upstream_error_message text), 1, db⟩
      else
        ⟨.ok id url, 1,
         if py_truthy_id id then
           track_retirement_job db (launch_record (id.getD 0) d template_id
             now) now
         else db⟩

/-- Unfolding of `launch_job_endpoint` past the token and host-count
guards, for a configured token and a valid host count. -/
theorem launch_job_endpoint_valid_eq (db : JobDB) (template_id : String)
    (d : LaunchRequest) (orch : LaunchHttpResult) (now : Int)
    (hval : ¬ (d.record_names.length < 1 ∨ 5 < d.record_names.length)) :
    launch_job_endpoint db true template_id d orch now =
      match orch with
      | .exc m => ⟨.upstream_failed 500 (launch_request_exc_message m), 1, db⟩
      | .http code id url text =>
        if 400 ≤ code then
          ⟨.upstream_failed 500 (launch_upstream_error_message text), 1, db⟩
        else
          ⟨.ok id url, 1,
           if py_truthy_id id then
             track_retirement_job db (launch_record (id.getD 0) d template_id
               now) now
           else db⟩ := by
  unfold launch_job_endpoint
  rw [if_neg (by simp), if_neg hval]

/-- C7: with the token configured, a submission whose host count is
outside [1,5] is rejected with the 400 validation response before
anything else happens: zero outbound orchestrator calls and an unchanged
store, whatever the orchestrator oracle would have answered. -/
theorem launch_validation_spec :
    ∀ (db : JobDB) (template_id : String) (d : LaunchRequest)
      (orch : LaunchHttpResult) (now : Int),
      d.record_names.length < 1 ∨ 5 < d.record_names.length →
      launch_job_endpoint db true template_id d orch now =
        ⟨.validation_failed 400
          "Invalid request: Between 1 and 5 VM record names must be provided per job.",
         0, db⟩ := by
  intro db template_id d orch now h
  unfold launch_job_endpoint
  rw [if_neg (by simp), if_pos h]

/-- Witness for `launch_validation_spec`: the zero-host submission. -/
theorem launch_validation_spec_witness :
    launch_job_endpoint ⟨[], []⟩ true "66" {} (.exc "unreachable") 0 =
      ⟨.validation_failed 400
        "Invalid request: Between 1 and 5 VM record names must be provided per job.",
       0, ⟨[], []⟩⟩ :=
  launch_validation_spec ⟨[], []⟩ "66" {} (.exc "unreachable") 0
    (by decide)

/-- C8: with the token configured and a valid host count (1 to 5), the
launch endpoint issues exactly one outbound call, succeeds exactly when
the orchestrator launch call succeeds, and on a failed call (non-success
status or raised exception) returns a 500 upstream error and leaves the
store unchanged — no JobRecord is created. -/
theorem launch_iff_upstream_spec :
    ∀ (db : JobDB) (template_id : String) (d : LaunchRequest)
      (orch : LaunchHttpResult) (now : Int),
      1 ≤ d.record_names.length → d.record_names.length ≤ 5 →
      (launch_job_endpoint db true template_id d orch now).outbound_calls
        = 1 ∧
      ((∃ id url,
        (launch_job_endpoint db true template_id d orch now).result
          = .ok id url) ↔ launch_call_success orch = true) ∧
      (launch_call_success orch = false →
        (∃ msg,
          (launch_job_endpoint db true template_id d orch now).result
            = .upstream_failed 500 msg) ∧
        (launch_job_endpoint db true template_id d orch now).db = db) := by
  intro db template_id d orch now h1 h5
  have hval : ¬ (d.record_names.length < 1 ∨ 5 < d.record_names.length) := by
    omega
  have hstep := launch_job_endpoint_valid_eq db template_id d orch now hval
  cases orch with
  | exc m =>
    rw [hstep]
    refine ⟨rfl, ?_, fun _ => ⟨⟨launch_request_exc_message m, rfl⟩, rfl⟩⟩
    have hcs : launch_call_success (.exc m) = false := rfl
    rw [hcs]
    simp
  | http code id url text =>
    rw [hstep]
    by_cases hc : 400 ≤ code
    · have hcs : launch_call_success (.http code id url text) = false := by
        simp only [launch_call_success, decide_eq_false_iff_not]
        omega
      rw [hcs]
      refine ⟨?_, ?_, ?_⟩
      · dsimp only
        rw [if_pos hc]
      · dsimp only
        rw [if_pos hc]
        simp
      · intro _
        dsimp only
        rw [if_pos hc]
        exact ⟨⟨launch_upstream_error_message text, rfl⟩, rfl⟩
    · have hcs : launch_call_success (.http code id url text) = true := by
        simp only [launch_call_success, decide_eq_true_eq]
        omega
      rw [hcs]
      refine ⟨?_, ?_, ?_⟩
      · dsimp only
        rw [if_neg hc]
      · dsimp only
        rw [if_neg hc]
        exact iff_of_true ⟨id, url, rfl⟩ rfl
      · intro hfalse
        exact absurd hfalse (by simp)

/-- Witness for `launch_iff_upstream_spec`: a two-host submission against
an orchestrator answering 201 with job id 12345. -/
theorem launch_iff_upstream_spec_witness :
    (launch_job_endpoint ⟨[], []⟩ true "66" { record_names := ["vm1", "vm2"] }
        (.http 201 (some 12345) (some "/jobs/12345/") "") 0).outbound_calls
      = 1 ∧
    ((∃ id url,
      (launch_job_endpoint ⟨[], []⟩ true "66"
          { record_names := ["vm1", "vm2"] }
          (.http 201 (some 12345) (some "/jobs/12345/") "") 0).result
        = .ok id url) ↔
      launch_call_success (.http 201 (some 12345) (some "/jobs/12345/") "")
        = true) :=
  ⟨(launch_iff_upstream_spec ⟨[], []⟩ "66" { record_names := ["vm1", "vm2"] }
      (.http 201 (some 12345) (some "/jobs/12345/") "") 0 (by decide)
      (by decide)).1,
   (launch_iff_upstream_spec ⟨[], []⟩ "66" { record_names := ["vm1", "vm2"] }
      (.http 201 (some 12345) (some "/jobs/12345/") "") 0 (by decide)
      (by decide)).2.1⟩

/-- C4 counterexample: the launch endpoint's upstream-failure response,
produced when the orchestrator call raises, embeds the raw exception text
(here "boom") in its message; the monitor endpoint's catch-all error
response is the raw exception text itself. -/
theorem error_message_leak_cex :
    (launch_job_endpoint ⟨[], []⟩ true "66" { record_names := ["vm1"] }
        (.exc "boom") 0).result
      = .upstream_failed 500
          "Error launching job: boom. Check token and template ID." ∧
    List.IsInfix "boom".data
      (launch_request_exc_message "boom").data ∧
    monitor_endpoint_error_message "boom" = "boom" := by
  refine ⟨by decide, by decide, rfl⟩

/-- C4 amended: outward error messages are built from fixed templates, but
the launch endpoint's templates interpolate the raw exception text (and,
for an orchestrator 4xx/5xx answer, the raw orchestrator response body),
and the monitor endpoint's catch-all message is the exception text
verbatim — so the raw text always occurs inside the outward message. -/
theorem error_message_templates_amended :
    ∀ e body_text : String,
      launch_request_exc_message e
        = "Error launching job: " ++ e ++ ". Check token and template ID." ∧
      List.IsInfix e.data (launch_request_exc_message e).data ∧
      launch_upstream_error_message body_text
        = "Error launching job: " ++ body_text ∧
      List.IsInfix body_text.data
        (launch_upstream_error_message body_text).data ∧
      launch_server_error_message e = "Server error: " ++ e ∧
      List.IsInfix e.data (launch_server_error_message e).data ∧
      monitor_endpoint_error_message e = e := by
  intro e body_text
  refine ⟨rfl, ?_, rfl, ?_, rfl, ?_, rfl⟩
  · have h : (launch_request_exc_message e).data
        = "Error launching job: ".data ++ e.data
          ++ ". Check token and template ID.".data := by
      simp [launch_request_exc_message, String.data_append]
    rw [h]
    exact List.infix_append _ _ _
  · have h : (launch_upstream_error_message body_text).data
        = "Error launching job: ".data ++ body_text.data := by
      simp [launch_upstream_error_message, String.data_append]
    rw [h]
    exact (List.suffix_append _ _).isInfix
  · have h : (launch_server_error_message e).data
        = "Server error: ".data ++ e.data := by
      simp [launch_server_error_message, String.data_append]
    rw [h]
    exact (List.suffix_append _ _).isInfix

/-- Membership test `j.status in ['pending', 'running']` of the summary's
active bucket (`src/performance/metrics.py` line 447). -/
def is_active (j : RetirementJobMetrics) : Bool :=
  j.status == "pending" || j.status == "running"

/-- Completed bucket: `j.status == 'successful'` (line 448). -/
def is_completed (j : RetirementJobMetrics) : Bool :=
  j.status == "successful"

/-- Failed bucket: `j.status == 'failed'` (line 449). -/
def is_failed_job (j : RetirementJobMetrics) : Bool :=
  j.status == "failed"

/-- Shape of the dictionary returned by `get_retirement_job_summary`. -/
structure RetirementJobSummary where
  total_jobs : Nat
  active_jobs : Nat
  completed_jobs : Nat
  failed_jobs : Nat
  success_rate : ℚ
  average_duration_minutes : ℚ
  jobs_per_hour : ℚ
  deriving Repr, DecidableEq

/-- PerformanceMetricsCollector.get_retirement_job_summary
(`src/performance/metrics.py` lines 442-465), taking as input the job list
the recency query returned. Python truthiness of `j.duration_seconds` and
of `avg_duration` (zero is falsy) is modelled explicitly. -/
def get_retirement_job_summary (jobs : List RetirementJobMetrics)
    (hours : Int) : RetirementJobSummary :=
  let total := jobs.length
  let active := (jobs.filter is_active).length
  let completed := (jobs.filter is_completed).length
  let failed := (jobs.filter is_failed_job).length
  let rate : ℚ := if 0 < total then (completed : ℚ) / (total : ℚ) * 100 else 0
  let completed_durations : List ℚ := jobs.filterMap (fun j =>
    match j.duration_seconds with
    | some dsec =>
      if dsec ≠ 0 ∧ j.status = "successful" then some dsec else none
    | none => none)
  let avg : ℚ :=
    if completed_durations ≠ [] then
      completed_durations.sum / (completed_durations.length : ℚ)
    else 0
  { total_jobs := total
    active_jobs := active
    completed_jobs := completed
    failed_jobs := failed
    success_rate := rate
    average_duration_minutes := if avg ≠ 0 then avg / 60 else 0
    jobs_per_hour :=
      if 0 < hours then (total : ℚ) / ((max hours 1 : Int) : ℚ) else 0 }

/-- Filters by three mutually exclusive predicates cover at most the whole
list. -/
theorem filter_three_disjoint_le {α : Type} (p q r : α → Bool)
    (l : List α)
    (hpq : ∀ x, p x = true → q x = false)
    (hpr : ∀ x, p x = true → r x = false)
    (hqr : ∀ x, q x = true → r x = false) :
    (l.filter p).length + (l.filter q).length + (l.filter r).length
      ≤ l.length := by
  induction l with
  | nil => simp
  | cons a t ih =>
    cases hpa : p a <;> cases hqa : q a <;> cases hra : r a
    · simp [List.filter_cons, hpa, hqa, hra]
      omega
    · simp [List.filter_cons, hpa, hqa, hra]
      omega
    · simp [List.filter_cons, hpa, hqa, hra]
      omega
    · exact absurd (hqr a hqa) (by simp [hra])
    · simp [List.filter_cons, hpa, hqa, hra]
      omega
    · exact absurd (hpr a hpa) (by simp [hra])
    · exact absurd (hpq a hpa) (by simp [hqa])
    · exact absurd (hpq a hpa) (by simp [hqa])

/-- The active and completed buckets are disjoint. -/
theorem active_completed_disjoint :
    ∀ x, is_active x = true → is_completed x = false := by
  intro x hx
  simp only [is_active, Bool.or_eq_true, beq_iff_eq] at hx
  simp only [is_completed, beq_eq_false_iff_ne, ne_eq]
  rcases hx with h | h <;> simp [h]

/-- The active and failed buckets are disjoint. -/
theorem active_failed_disjoint :
    ∀ x, is_active x = true → is_failed_job x = false := by
  intro x hx
  simp only [is_active, Bool.or_eq_true, beq_iff_eq] at hx
  simp only [is_failed_job, beq_eq_false_iff_ne, ne_eq]
  rcases hx with h | h <;> simp [h]

/-- The completed and failed buckets are disjoint. -/
theorem completed_failed_disjoint :
    ∀ x, is_completed x = true → is_failed_job x = false := by
  intro x hx
  simp only [is_completed, beq_iff_eq] at hx
  simp only [is_failed_job, beq_eq_false_iff_ne, ne_eq]
  simp [hx]

/-- C10: the jobs summary computes success_rate as
completed_jobs / total_jobs * 100 where completed_jobs counts exactly the
jobs with status successful (and 0 with no jobs); jobs with status error
or unknown fall in none of the active, completed or failed buckets while
still counting toward total_jobs; hence
active_jobs + completed_jobs + failed_jobs ≤ total_jobs. -/
theorem job_summary_spec :
    ∀ (jobs : List RetirementJobMetrics) (hours : Int),
      (get_retirement_job_summary jobs hours).total_jobs = jobs.length ∧
      (get_retirement_job_summary jobs hours).completed_jobs
        = (jobs.filter is_completed).length ∧
      (get_retirement_job_summary jobs hours).success_rate
        = (if 0 < jobs.length then
            ((jobs.filter is_completed).length : ℚ) / (jobs.length : ℚ) * 100
           else 0) ∧
      (∀ j : RetirementJobMetrics,
        j.status = "error" ∨ j.status = "unknown" →
        is_active j = false ∧ is_completed j = false ∧
          is_failed_job j = false) ∧
      (get_retirement_job_summary jobs hours).active_jobs
          + (get_retirement_job_summary jobs hours).completed_jobs
          + (get_retirement_job_summary jobs hours).failed_jobs
        ≤ (get_retirement_job_summary jobs hours).total_jobs := by
  intro jobs hours
  refine ⟨rfl, rfl, rfl, ?_, ?_⟩
  · intro j hj
    refine ⟨?_, ?_, ?_⟩
    · simp only [is_active, Bool.or_eq_false_iff, beq_eq_false_iff_ne,
        ne_eq]
      rcases hj with h | h <;> simp [h]
    · simp only [is_completed, beq_eq_false_iff_ne, ne_eq]
      rcases hj with h | h <;> simp [h]
    · simp only [is_failed_job, beq_eq_false_iff_ne, ne_eq]
      rcases hj with h | h <;> simp [h]
  · exact filter_three_disjoint_le is_active is_completed is_failed_job
      jobs active_completed_disjoint active_failed_disjoint
      completed_failed_disjoint

/-- Witness for `job_summary_spec`: the bucket-exclusion clause applied to
a concrete record with status error, discharging the hypothesis there. -/
theorem job_summary_spec_witness :
    is_active { job_id := "9", status := "error", job_type := "retirement",
                target_hosts := ["vm1"], start_time := 0 } = false ∧
    is_completed { job_id := "9", status := "error",
                   job_type := "retirement", target_hosts := ["vm1"],
                   start_time := 0 } = false ∧
    is_failed_job { job_id := "9", status := "error",
                    job_type := "retirement", target_hosts := ["vm1"],
                    start_time := 0 } = false :=
  (job_summary_spec [{ job_id := "9", status := "error",
                       job_type := "retirement", target_hosts := ["vm1"],
                       start_time := 0 }] 24).2.2.2.1
    { job_id := "9", status := "error", job_type := "retirement",
      target_hosts := ["vm1"], start_time := 0 } (Or.inl rfl)

end RetireWeb
